import Mathlib

/-!
Verification of the mesh-viewer core (rust-wasm-obj-renderer) against its
natural-language specification.  The Rust sources are shallowly embedded:

* `src/loader/mod.rs` (`load_model`): a line-oriented OBJ-subset reader over
  character lists; Rust panics raised through `.expect(msg)` are modelled as
  `Except.error msg`.  `f32` coordinate values are idealised as exact
  rationals (`ℚ`); the decimal-literal parser covers plain decimal tokens
  (optional sign, digits, optional fractional part) — scientific notation,
  `inf`/`nan` and IEEE rounding are outside the model, and no claim below
  depends on them.
* `src/init_dom/mod.rs` (mouse event callbacks): pure state transformers over
  the shared viewer state; `i32` cursor coordinates are modelled as `ℤ` and
  `f32` angles/offsets as `ℚ`, with Rust `%` on floats embedded as the exact
  truncating remainder and `f32::clamp` embedded literally.
* `src/web_gl_state/mod.rs` (`WebGLState::draw`): the matrix derivation is
  embedded over an arbitrary field `K` equipped with abstract `cos`, `sin`,
  `π` and inverse-square-root operations (`GlamOps`), transcribing the glam
  column-major constructors (`from_rotation_*`, `perspective_lh`,
  `look_at_lh`) into Mathlib `Matrix` values.
-/

namespace ObjRenderer

/-! ### Character-level text utilities (Rust `BufRead::read_line` / `str::split_whitespace`) -/

/-- A token is a run of characters, as produced by whitespace splitting. -/
abbrev Token := List Char

/-- Split a character stream at newline characters, keeping empty segments.
Models the `while reader.read_line(&mut buf)` loop: each segment is the
content of one line (the final empty segment produced by a trailing newline
corresponds to `read_line` returning 0 and is a no-op for the token pass). -/
def splitAtNewlines : List Char → List (List Char)
  | [] => [[]]
  | c :: cs =>
    match splitAtNewlines cs with
    | [] => [[]]
    | l :: ls => if c = '\n' then [] :: l :: ls else (c :: l) :: ls

/-- Helper for `splitWhitespace`: `acc` holds the current token, reversed. -/
def splitWsAux : List Char → List Char → List Token
  | [], acc => if acc.isEmpty then [] else [acc.reverse]
  | c :: cs, acc =>
    if c.isWhitespace then
      if acc.isEmpty then splitWsAux cs [] else acc.reverse :: splitWsAux cs []
    else splitWsAux cs (c :: acc)

/-- Model of Rust `str::split_whitespace`: maximal runs of non-whitespace
characters, with no empty tokens. -/
def splitWhitespace (cs : List Char) : List Token := splitWsAux cs []

/-! ### Numeric token decoding -/

/-- Numeric value of a decimal digit character. -/
def digitVal (c : Char) : Nat := c.toNat - 48

/-- Value of a digit run, or `none` if any character is not a decimal digit.
(The empty run yields `some 0`; emptiness is checked by the callers.) -/
def decDigitsAux : List Char → Nat → Option Nat
  | [], acc => some acc
  | c :: cs, acc => if c.isDigit then decDigitsAux cs (acc * 10 + digitVal c) else none

/-- Value of a non-empty digit run, or `none`. -/
def decDigitsVal? : Token → Option Nat
  | [] => none
  | cs => decDigitsAux cs 0

/-- Model of Rust `u32::from_str`: an optional leading `+`, then one or more
decimal digits, with the value required to fit in 32 bits. -/
def parseU32? (t : Token) : Option Nat :=
  let digits := match t with
    | '+' :: rest => rest
    | _ => t
  match decDigitsVal? digits with
  | some n => if n < 4294967296 then some n else none
  | none => none

/-- Idealised model of Rust `f32::from_str` for plain decimal literals: an
optional sign, a digit run, and an optional fractional digit run, at least
one digit in total, decoded to the exact rational value.  Scientific
notation, `inf`/`nan` and rounding to `f32` are outside the model. -/
def parseF32? (t : Token) : Option ℚ :=
  let signSplit : Bool × List Char := match t with
    | '-' :: rest => (true, rest)
    | '+' :: rest => (false, rest)
    | _ => (false, t)
  let neg := signSplit.1
  let body := signSplit.2
  let intPart := body.takeWhile (fun c => c ≠ '.')
  let dotRest := body.dropWhile (fun c => c ≠ '.')
  if intPart.all Char.isDigit then
    match dotRest with
    | [] =>
      if intPart.isEmpty then none
      else
        let v : ℚ := ((decDigitsAux intPart 0).getD 0 : ℕ)
        some (if neg then -v else v)
    | _ :: frac =>
      if frac.all Char.isDigit && !(intPart.isEmpty && frac.isEmpty) then
        let v : ℚ := ((decDigitsAux intPart 0).getD 0 : ℕ) +
          ((decDigitsAux frac 0).getD 0 : ℕ) / ((10 : ℚ) ^ frac.length)
        some (if neg then -v else v)
      else none
  else none

/-! ### The loader (`src/loader/mod.rs`, `load_model`) -/

/-- Flattened mesh data, as returned by `load_model` (`ModelData` with
`vertices: Vec<f32>` and `indices: Vec<u32>`). -/
structure ModelData where
  vertices : List ℚ
  indices : List Nat
deriving DecidableEq, Repr

/-- Vertex triples, in parse order (`vertex_position_list: Vec<[f32; 3]>`). -/
abbrev VertList := List (ℚ × ℚ × ℚ)

/-- Index triples, in parse order (`triangle_list: Vec<[u32; 3]>`). -/
abbrev TriList := List (Nat × Nat × Nat)

/-- First `/`-separated segment of a face token: Rust
`tok.split("/").next()` — always present, hence the corresponding
`.expect("there is a vertex number ...")` never fires. -/
def firstSlashSeg (t : Token) : Token := t.takeWhile (fun c => c ≠ '/')

/-- One iteration of the `while read_line` loop in `load_model`, on the
whitespace tokens of one line.  `.error msg` models the Rust panic raised by
`.expect(msg)`; unrecognised first tokens (including `"g"`) leave the state
unchanged. -/
def processLine (tokens : List Token) (vs : VertList) (ts : TriList) :
    Except String (VertList × TriList) :=
  match tokens with
  | [] => .ok (vs, ts)
  | pfx :: rest =>
    if pfx = ['v'] then
      match rest with
      | [] => .error "there is x data"
      | xTok :: rest₁ =>
        match parseF32? xTok with
        | none => .error "x_coord should be parsable into f32"
        | some x =>
          match rest₁ with
          | [] => .error "there is y data"
          | yTok :: rest₂ =>
            match parseF32? yTok with
            | none => .error "y_coord should be parsable into f32"
            | some y =>
              match rest₂ with
              | [] => .error "there is z data"
              | zTok :: _ =>
                match parseF32? zTok with
                | none => .error "z_coord should be parsable into f32"
                | some z => .ok (vs ++ [(x, y, z)], ts)
    else if pfx = ['f'] then
      match rest with
      | [] => .error "there is data for vertex 1"
      | t₁ :: rest₁ =>
        match parseU32? (firstSlashSeg t₁) with
        | none => .error "there is a u32 parsable index for vertex 1"
        | some i₁ =>
          match rest₁ with
          | [] => .error "there is data for vertex 2"
          | t₂ :: rest₂ =>
            match parseU32? (firstSlashSeg t₂) with
            | none => .error "there is a u32 parsable index for vertex 2"
            | some i₂ =>
              match rest₂ with
              | [] => .error "there is data for vertex 3"
              | t₃ :: _ =>
                match parseU32? (firstSlashSeg t₃) with
                | none => .error "there is a u32 parsable index for vertex 3"
                | some i₃ => .ok (vs, ts ++ [(i₁, i₂, i₃)])
    else .ok (vs, ts)

/-- The whole line loop of `load_model`, threading the two vectors. -/
def runLines : List (List Token) → VertList → TriList → Except String (VertList × TriList)
  | [], vs, ts => .ok (vs, ts)
  | l :: ls, vs, ts =>
    match processLine l vs ts with
    | .error e => .error e
    | .ok st => runLines ls st.1 st.2

/-- `vertex_position_list.into_iter().flatten().collect()`. -/
def flattenV : VertList → List ℚ
  | [] => []
  | (x, y, z) :: rest => x :: y :: z :: flattenV rest

/-- `triangle_list.into_iter().flatten().collect()`. -/
def flattenT : TriList → List Nat
  | [] => []
  | (a, b, c) :: rest => a :: b :: c :: flattenT rest

/-- Lines of the input, as whitespace tokens. -/
def tokenLines (input : String) : List (List Token) :=
  (splitAtNewlines input.toList).map splitWhitespace

/-- Embedding of `load_model` (src/loader/mod.rs lines 75–180): seeds the
vertex list with the `[0,0,0]` sentinel coordinate and the triangle list with
the `[0,0,0]` sentinel triple, runs the line loop, then flattens both.
`Except.error msg` models a Rust panic via `.expect(msg)`; the Rust
function's own `Err` variant is never produced on this path. -/
def load_model (input : String) : Except String ModelData :=
  match runLines (tokenLines input) [(0, 0, 0)] [(0, 0, 0)] with
  | .error e => .error e
  | .ok st => .ok ⟨flattenV st.1, flattenT st.2⟩

instance {ε α : Type} [DecidableEq ε] [DecidableEq α] : DecidableEq (Except ε α) := fun a b =>
  match a, b with
  | .error e, .error f =>
    if h : e = f then .isTrue (by rw [h]) else .isFalse (by intro hc; cases hc; exact h rfl)
  | .error _, .ok _ => .isFalse (by intro hc; cases hc)
  | .ok _, .error _ => .isFalse (by intro hc; cases hc)
  | .ok x, .ok y =>
    if h : x = y then .isTrue (by rw [h]) else .isFalse (by intro hc; cases hc; exact h rfl)

/-- The face triples decoded from the input by the same line pass, starting
from empty vectors (no sentinels). -/
def parsedFaces (input : String) : Except String TriList :=
  (runLines (tokenLines input) [] []).map Prod.snd

/-- The vertex triples decoded from the input by the same line pass, starting
from empty vectors (no sentinels). -/
def parsedVerts (input : String) : Except String VertList :=
  (runLines (tokenLines input) [] []).map Prod.fst

/-- Number of stored 3D points in a `ModelData` (the flat coordinate list
holds three floats per point). -/
def numVertices (md : ModelData) : Nat := md.vertices.length / 3

/-! ### Shared viewer state and mouse callbacks (`src/init_dom/mod.rs`) -/

/-- Truncation of a rational toward zero, as Rust float-to-float division
truncates in the remainder operation. -/
def ratTrunc (q : ℚ) : ℤ := if 0 ≤ q then ⌊q⌋ else ⌈q⌉

/-- Rust `%` on floating-point values: the truncating remainder
`a - b * trunc(a / b)` (result carries the sign of the dividend), modelled
exactly on `ℚ`. -/
def rustRem (a b : ℚ) : ℚ := a - b * (ratTrunc (a / b) : ℚ)

/-- Rust `f32::clamp(lo, hi)`: `lo` if below, `hi` if above, the value
otherwise. -/
def rustClamp (x lo hi : ℚ) : ℚ := if x < lo then lo else if hi < x then hi else x

/-- The fields of `SharedState` touched by the event callbacks registered in
`Dom::register_dom_event_callbacks`.  The struct's own declaration lives
outside the provided sources; the fields and their types are read off the
handler code (`canvas_cursor_is_dragging: bool`,
`canvas_cursor_xy_coordinates: [i32; 2]`, `current_rotation: [f32; 2]`,
`camera_offset: f32`, `z_near`/`z_far: f32`), with `i32` idealised as `ℤ`
and `f32` as `ℚ`. -/
structure SharedState where
  canvas_cursor_is_dragging : Bool
  canvas_cursor_xy_coordinates : ℤ × ℤ
  current_rotation : ℚ × ℚ
  camera_offset : ℚ
  z_near : ℚ
  z_far : ℚ
deriving DecidableEq, Repr

/-- The `mousedown` callback: sets the dragging flag. -/
def mouse_down (st : SharedState) : SharedState :=
  { st with canvas_cursor_is_dragging := true }

/-- The `mouseup` callback: clears the dragging flag. -/
def mouse_up (st : SharedState) : SharedState :=
  { st with canvas_cursor_is_dragging := false }

/-- The `wheel` callback (src/init_dom/mod.rs lines 72–93): adds a quarter of
the wheel delta to the camera offset and clamps to `[1, 1000]`.  The handler
reads no dragging state; the subsequent `draw` call mutates nothing. -/
def mouse_wheel (st : SharedState) (scroll_delta : ℚ) : SharedState :=
  let prev_offset := st.camera_offset
  let scaling_factor : ℚ := 1 / 4
  let new_camera_offset := prev_offset + scaling_factor * scroll_delta
  let new_camera_offset := rustClamp new_camera_offset 1 1000
  { st with camera_offset := new_camera_offset }

/-- The `mousemove` callback (src/init_dom/mod.rs lines 96–137): while
dragging, the deltas from the previously stored cursor position are added to
the matching rotation components (`current_rotation[0] += delta_x`,
`current_rotation[1] += delta_y`), each reduced `% 360.0`; afterwards — in
both states — the stored cursor position is overwritten with the event
coordinates.  The `draw` call inside the branch mutates nothing. -/
def mouse_move (st : SharedState) (x y : ℤ) : SharedState :=
  let st₁ :=
    if st.canvas_cursor_is_dragging then
      let prev_x := st.canvas_cursor_xy_coordinates.1
      let prev_y := st.canvas_cursor_xy_coordinates.2
      let delta_x := prev_x - x
      let delta_y := prev_y - y
      let prev_rotation_xy := st.current_rotation
      let new_rotation_x := prev_rotation_xy.1 + (delta_x : ℚ)
      let new_rotation_x := rustRem new_rotation_x 360
      let new_rotation_y := prev_rotation_xy.2 + (delta_y : ℚ)
      let new_rotation_y := rustRem new_rotation_y 360
      { st with current_rotation := (new_rotation_x, new_rotation_y) }
    else st
  { st₁ with canvas_cursor_xy_coordinates := (x, y) }

/-! ### `WebGLState::draw` (`src/web_gl_state/mod.rs`) -/

/-- Abstract trigonometric/radical operations over a scalar field, standing
for the `f32` operations used by glam.  Keeping them abstract makes the
matrix derivation a purely structural function of the camera inputs. -/
structure GlamOps (K : Type) where
  cos : K → K
  sin : K → K
  pi : K
  invSqrt : K → K

/-- 3-component vector over the scalar field. -/
abbrev Vec3 (K : Type) := K × K × K

/-- 4×4 matrix over the scalar field (glam `Mat4`, written row-major here;
glam's column-major constructors are transposed accordingly). -/
abbrev Mat4 (K : Type) := Matrix (Fin 4) (Fin 4) K

variable {K : Type} [Field K]

/-- Vector difference (glam `Vec3: Sub`). -/
def vsub (a b : Vec3 K) : Vec3 K := (a.1 - b.1, a.2.1 - b.2.1, a.2.2 - b.2.2)

/-- Vector negation (glam `Vec3: Neg`). -/
def vneg (a : Vec3 K) : Vec3 K := (-a.1, -a.2.1, -a.2.2)

/-- Scalar multiple of a vector. -/
def vscale (s : K) (a : Vec3 K) : Vec3 K := (s * a.1, s * a.2.1, s * a.2.2)

/-- Dot product (glam `Vec3::dot`). -/
def vdot (a b : Vec3 K) : K := a.1 * b.1 + a.2.1 * b.2.1 + a.2.2 * b.2.2

/-- Cross product (glam `Vec3::cross`). -/
def vcross (a b : Vec3 K) : Vec3 K :=
  (a.2.1 * b.2.2 - a.2.2 * b.2.1,
   a.2.2 * b.1 - a.1 * b.2.2,
   a.1 * b.2.1 - a.2.1 * b.1)

/-- glam `Vec3::normalize`: the vector scaled by the reciprocal square root
of its squared length. -/
def vnormalize (o : GlamOps K) (a : Vec3 K) : Vec3 K :=
  vscale (o.invSqrt (vdot a a)) a

/-- glam `Mat4::from_rotation_x` (columns `(1,0,0,0)`, `(0,c,s,0)`,
`(0,-s,c,0)`, `(0,0,0,1)`), written row-major. -/
def from_rotation_x (o : GlamOps K) (a : K) : Mat4 K :=
  !![1, 0, 0, 0;
     0, o.cos a, -(o.sin a), 0;
     0, o.sin a, o.cos a, 0;
     0, 0, 0, 1]

/-- glam `Mat4::from_rotation_y` (columns `(c,0,-s,0)`, `(0,1,0,0)`,
`(s,0,c,0)`, `(0,0,0,1)`), written row-major. -/
def from_rotation_y (o : GlamOps K) (a : K) : Mat4 K :=
  !![o.cos a, 0, o.sin a, 0;
     0, 1, 0, 0;
     -(o.sin a), 0, o.cos a, 0;
     0, 0, 0, 1]

/-- glam `Mat4::from_rotation_z` (columns `(c,s,0,0)`, `(-s,c,0,0)`,
`(0,0,1,0)`, `(0,0,0,1)`), written row-major. -/
def from_rotation_z (o : GlamOps K) (a : K) : Mat4 K :=
  !![o.cos a, -(o.sin a), 0, 0;
     o.sin a, o.cos a, 0, 0;
     0, 0, 1, 0;
     0, 0, 0, 1]

/-- glam `Mat4::perspective_lh`: with `h = cos(fov/2)/sin(fov/2)`,
`w = h/aspect`, `r = z_far/(z_far - z_near)`, the columns are `(w,0,0,0)`,
`(0,h,0,0)`, `(0,0,r,1)`, `(0,0,-r*z_near,0)`, written row-major. -/
def perspective_lh (o : GlamOps K) (fovY aspect zNear zFar : K) : Mat4 K :=
  let sinFov := o.sin ((1 / 2) * fovY)
  let cosFov := o.cos ((1 / 2) * fovY)
  let h := cosFov / sinFov
  let w := h / aspect
  let r := zFar / (zFar - zNear)
  !![w, 0, 0, 0;
     0, h, 0, 0;
     0, 0, r, -(r * zNear);
     0, 0, 1, 0]

/-- glam `Mat4::look_to_rh`: `f = normalize(dir)`, `s = normalize(f × up)`,
`u = s × f`, columns `(s.x,u.x,-f.x,0)`, `(s.y,u.y,-f.y,0)`,
`(s.z,u.z,-f.z,0)`, `(-eye·s,-eye·u,eye·f,1)`, written row-major. -/
def look_to_rh (o : GlamOps K) (eye dir up : Vec3 K) : Mat4 K :=
  let f := vnormalize o dir
  let s := vnormalize o (vcross f up)
  let u := vcross s f
  !![s.1, s.2.1, s.2.2, -(vdot eye s);
     u.1, u.2.1, u.2.2, -(vdot eye u);
     -f.1, -f.2.1, -f.2.2, vdot eye f;
     0, 0, 0, 1]

/-- glam `Mat4::look_to_lh eye dir up = look_to_rh eye (-dir) up`. -/
def look_to_lh (o : GlamOps K) (eye dir up : Vec3 K) : Mat4 K :=
  look_to_rh o eye (vneg dir) up

/-- glam `Mat4::look_at_lh eye center up = look_to_lh eye (center - eye) up`. -/
def look_at_lh (o : GlamOps K) (eye center up : Vec3 K) : Mat4 K :=
  look_to_lh o eye (vsub center eye) up

/-- `CAMERA_TARGET` from src/lib.rs: `Vec3::ZERO`. -/
def CAMERA_TARGET : Vec3 K := (0, 0, 0)

/-- The world/model matrix computed inside `draw`
(src/web_gl_state/mod.rs lines 85 and 97–105): the identity, multiplied by
the X rotation by `-1.0 * y_rot * PI / 180.0`, the Y rotation by `0.0`, and
the Z rotation by `x_rot * PI / 180.0`, in that order. -/
def draw_world_matrix (o : GlamOps K) (x_rot y_rot : K) : Mat4 K :=
  let world_matrix : Mat4 K := 1
  let x_rotation_matrix := from_rotation_x o (-1 * y_rot * o.pi / 180)
  let y_rotation_matrix := from_rotation_y o 0
  let z_rotation_matrix := from_rotation_z o (x_rot * o.pi / 180)
  world_matrix * x_rotation_matrix * y_rotation_matrix * z_rotation_matrix

/-- The view matrix computed inside `draw` (lines 90–95): a left-handed
look-at from `(0, camera_offset, camera_offset)` toward `CAMERA_TARGET` with
up-vector `(0, 1, 0)`. -/
def draw_view_matrix (o : GlamOps K) (camera_offset : K) : Mat4 K :=
  let up : Vec3 K := (0, 1, 0)
  look_at_lh o (0, camera_offset, camera_offset) CAMERA_TARGET up

/-- The projection matrix computed inside `draw` (lines 86–89): a
left-handed perspective with vertical field of view `60.0 * PI / 180.0` and
aspect `canvas_width / canvas_height`. -/
def draw_projection_matrix (o : GlamOps K) (canvas_width canvas_height : ℕ)
    (z_near z_far : K) : Mat4 K :=
  let field_of_view_radians := 60 * o.pi / 180
  let aspect : K := (canvas_width : K) / (canvas_height : K)
  perspective_lh o field_of_view_radians aspect z_near z_far

/-- Everything `draw` hands to the rendering backend for one frame: the
three matrices set as shader uniforms and the flattened vertex/index buffers
uploaded from the held `ModelData`. -/
structure FrameDescriptor (K : Type) where
  view : Mat4 K
  projection : Mat4 K
  world : Mat4 K
  vertexBuffer : List ℚ
  indexBuffer : List Nat

/-- Outcome of one `draw` call: the Rust code panics (`panic!()`) when no
model is held, and otherwise issues the frame. -/
inductive DrawResult (K : Type) where
  | panicked
  | drew (frame : FrameDescriptor K)

/-- Embedding of `WebGLState::draw` (src/web_gl_state/mod.rs lines 62–154).
The held `Option ModelData` is the only `WebGLState` field the frame depends
on; `draw` takes `&self`, so the held state is returned unchanged.  With no
model held the code logs and executes `panic!()`. -/
def draw (o : GlamOps K) (model_data : Option ModelData)
    (canvas_width canvas_height : ℕ) (x_rot y_rot z_near z_far camera_offset : K) :
    DrawResult K × Option ModelData :=
  match model_data with
  | none => (.panicked, model_data)
  | some md =>
    (.drew ⟨draw_view_matrix o camera_offset,
            draw_projection_matrix o canvas_width canvas_height z_near z_far,
            draw_world_matrix o x_rot y_rot,
            md.vertices, md.indices⟩,
     model_data)

/-! ### Spec-side definitions (for refinement claims) -/

/-- Modelled from the spec: conversion of an angle from degrees to radians
(§4.3 "All angles converted degrees→radians before use"). -/
def degToRad (o : GlamOps K) (d : K) : K := d * o.pi / 180

/-- Modelled from the spec: the textbook rotation matrix about the X axis in
homogeneous coordinates. -/
def rotationXMatrix (o : GlamOps K) (a : K) : Mat4 K :=
  !![1, 0, 0, 0;
     0, o.cos a, -(o.sin a), 0;
     0, o.sin a, o.cos a, 0;
     0, 0, 0, 1]

/-- Modelled from the spec: the textbook rotation matrix about the Y axis in
homogeneous coordinates. -/
def rotationYMatrix (o : GlamOps K) (a : K) : Mat4 K :=
  !![o.cos a, 0, o.sin a, 0;
     0, 1, 0, 0;
     -(o.sin a), 0, o.cos a, 0;
     0, 0, 0, 1]

/-- Modelled from the spec: the textbook rotation matrix about the Z axis in
homogeneous coordinates. -/
def rotationZMatrix (o : GlamOps K) (a : K) : Mat4 K :=
  !![o.cos a, -(o.sin a), 0, 0;
     o.sin a, o.cos a, 0, 0;
     0, 0, 1, 0;
     0, 0, 0, 1]

/-- Modelled from the spec (§4.3): the world matrix as the spec words it —
the identity composed, in the fixed order rotationX, rotationY, rotationZ,
with a rotation about X by `-rotation.y` degrees, about Y by `0` degrees,
and about Z by `rotation.x` degrees, each converted to radians. -/
def specWorldMatrix (o : GlamOps K) (rotX rotY : K) : Mat4 K :=
  1 * rotationXMatrix o (degToRad o (-rotY))
    * rotationYMatrix o (degToRad o 0)
    * rotationZMatrix o (degToRad o rotX)

/-! ### Sanity evaluations of the loader embedding -/

example : load_model "v 1 2 3\nv 4 5 6\nf 1 2 1\n" =
    .ok ⟨[0, 0, 0, 1, 2, 3, 4, 5, 6], [0, 0, 0, 1, 2, 1]⟩ := by decide

example : load_model "f 2 2 2\n" = .ok ⟨[0, 0, 0], [0, 0, 0, 2, 2, 2]⟩ := by decide

example : load_model "v 1 2 3 4\n" = .ok ⟨[0, 0, 0, 1, 2, 3], [0, 0, 0]⟩ := by decide

example : load_model "g foo\nunknown 1 2\n" = .ok ⟨[0, 0, 0], [0, 0, 0]⟩ := by decide

example : load_model "f 1/2/3 4//5 6\n" = .ok ⟨[0, 0, 0], [0, 0, 0, 1, 4, 6]⟩ := by decide

/-! ### Helper lemmas (shared; not tied to any one claim) -/

/-- One line's effect on the two vectors does not depend on their prior
contents: the result is the prior state with the line's contribution
appended (and failure is state-independent). -/
theorem processLine_shift (l : List Token) (vs : VertList) (ts : TriList) :
    processLine l vs ts =
      (processLine l [] []).map (fun d => (vs ++ d.1, ts ++ d.2)) := by
  cases l with
  | nil => simp [processLine, Except.map]
  | cons pfx rest =>
    by_cases hv : pfx = ['v']
    · subst hv
      rcases rest with _ | ⟨xTok, rest₁⟩
      · simp [processLine, Except.map]
      · rcases hx : parseF32? xTok with _ | x <;> simp [processLine, hx, Except.map]
        rcases rest₁ with _ | ⟨yTok, rest₂⟩
        · simp [Except.map]
        · rcases hy : parseF32? yTok with _ | y <;> simp [hy, Except.map]
          rcases rest₂ with _ | ⟨zTok, rest₃⟩
          · simp [Except.map]
          · rcases hz : parseF32? zTok with _ | z <;> simp [hz, Except.map]
    · by_cases hf : pfx = ['f']
      · subst hf
        rcases rest with _ | ⟨t₁, rest₁⟩
        · simp [processLine, hv, Except.map]
        · rcases h₁ : parseU32? (firstSlashSeg t₁) with _ | i₁ <;>
            simp [processLine, hv, h₁, Except.map]
          rcases rest₁ with _ | ⟨t₂, rest₂⟩
          · simp [Except.map]
          · rcases h₂ : parseU32? (firstSlashSeg t₂) with _ | i₂ <;> simp [h₂, Except.map]
            rcases rest₂ with _ | ⟨t₃, rest₃⟩
            · simp [Except.map]
            · rcases h₃ : parseU32? (firstSlashSeg t₃) with _ | i₃ <;> simp [h₃, Except.map]
      · simp [processLine, hv, hf, Except.map]

/-- The whole line loop appends its contributions to whatever the vectors
already hold (so the sentinels seeded before the loop stay in front). -/
theorem runLines_shift (ls : List (List Token)) :
    ∀ (vs : VertList) (ts : TriList),
      runLines ls vs ts =
        (runLines ls [] []).map (fun d => (vs ++ d.1, ts ++ d.2)) := by
  induction ls with
  | nil => intro vs ts; simp [runLines, Except.map]
  | cons l ls ih =>
    intro vs ts
    simp only [runLines]
    rw [processLine_shift l vs ts]
    rcases hl : processLine l [] [] with e | ⟨dv, dt⟩
    · simp [Except.map]
    · simp only [Except.map]
      rw [ih (vs ++ dv) (ts ++ dt), ih dv dt]
      rcases runLines ls [] [] with e | ⟨rv, rt⟩ <;>
        simp [Except.map, List.append_assoc]

/-- Characterisation of a mouse move in the Dragging state: the previously
stored cursor is read before being overwritten, each rotation component is
incremented by the matching cursor delta and reduced by the truncating
remainder `% 360.0`, and the stored cursor becomes the event position. -/
theorem mouse_move_dragging_eq (st : SharedState) (x y : ℤ)
    (h : st.canvas_cursor_is_dragging = true) :
    mouse_move st x y =
      { st with
        current_rotation :=
          (rustRem (st.current_rotation.1 +
              ((st.canvas_cursor_xy_coordinates.1 - x : ℤ) : ℚ)) 360,
           rustRem (st.current_rotation.2 +
              ((st.canvas_cursor_xy_coordinates.2 - y : ℤ) : ℚ)) 360),
        canvas_cursor_xy_coordinates := (x, y) } := by
  simp [mouse_move, h]

/-- The truncating remainder by a positive modulus lies strictly between
`-b` and `b`. -/
theorem rustRem_bounds (a b : ℚ) (hb : 0 < b) :
    -b < rustRem a b ∧ rustRem a b < b := by
  unfold rustRem ratTrunc
  have hb0 : b ≠ 0 := ne_of_gt hb
  have hab : b * (a / b) = a := by field_simp
  by_cases h : 0 ≤ a / b
  · rw [if_pos h]
    have h₁ : (⌊a / b⌋ : ℚ) ≤ a / b := Int.floor_le _
    have h₂ : a / b < ⌊a / b⌋ + 1 := Int.lt_floor_add_one _
    constructor <;> nlinarith
  · rw [if_neg h]
    have h₁ : a / b ≤ (⌈a / b⌉ : ℚ) := Int.le_ceil _
    have h₂ : (⌈a / b⌉ : ℚ) < a / b + 1 := Int.ceil_lt_add_one _
    constructor <;> nlinarith

/-- Rust's branching `clamp` agrees with `min`/`max` when the bounds are
ordered. -/
theorem rustClamp_eq_min_max (x lo hi : ℚ) (h : lo ≤ hi) :
    rustClamp x lo hi = min (max x lo) hi := by
  unfold rustClamp
  rcases lt_or_le x lo with h₁ | h₁
  · rw [if_pos h₁, max_eq_right h₁.le, min_eq_left h]
  · rw [if_neg (not_lt.mpr h₁)]
    rcases lt_or_le hi x with h₂ | h₂
    · rw [if_pos h₂, max_eq_left h₁, min_eq_right h₂.le]
    · rw [if_neg (not_lt.mpr h₂), max_eq_left h₁, min_eq_left h₂]

/-- The truncating remainder leaves a value that is already strictly inside
`(-b, b)` unchanged. -/
theorem rustRem_eq_self (a b : ℚ) (hb : 0 < b) (h₁ : -b < a) (h₂ : a < b) :
    rustRem a b = a := by
  have hq₁ : (-1 : ℚ) < a / b := by
    rw [lt_div_iff₀ hb]; linarith
  have hq₂ : a / b < 1 := (div_lt_one hb).mpr h₂
  have ht : ratTrunc (a / b) = 0 := by
    unfold ratTrunc
    by_cases h : 0 ≤ a / b
    · rw [if_pos h]
      exact Int.floor_eq_zero_iff.mpr ⟨h, hq₂⟩
    · rw [if_neg h]
      exact Int.ceil_eq_zero_iff.mpr ⟨hq₁, le_of_lt (lt_of_not_ge h)⟩
  unfold rustRem
  rw [ht]
  push_cast
  ring

/-! ### Claim theorems -/

/-- C1, counterexample: the input `"f 2 2 2\n"` parses successfully, yet the
returned indices contain `0` (the sentinel triple) and `2`, which is not
strictly below the number of stored vertices (here `1`), refuting the
claimed index invariant. -/
theorem load_model_index_invariant_fails :
    load_model "f 2 2 2\n" = .ok ⟨[0, 0, 0], [0, 0, 0, 2, 2, 2]⟩ ∧
    ¬ (∀ i ∈ (ModelData.mk [0, 0, 0] [0, 0, 0, 2, 2, 2]).indices,
        0 < i ∧ i < numVertices ⟨[0, 0, 0], [0, 0, 0, 2, 2, 2]⟩) := by
  constructor
  · decide
  · decide

/-- C1 (amended): on every successfully parsed input the returned index
sequence is exactly the sentinel triple `0, 0, 0` followed by the face
triples decoded from the input, flattened in order, and the vertex sequence
is exactly the sentinel point `0, 0, 0` followed by the decoded vertex
coordinates; no range validation against the vertex count is performed, so
index `0` is always present and out-of-range indices are stored verbatim. -/
theorem load_model_indices_structure (input : String) (md : ModelData)
    (h : load_model input = .ok md) :
    ∃ uvs fs, parsedVerts input = .ok uvs ∧ parsedFaces input = .ok fs ∧
      md.vertices = 0 :: 0 :: 0 :: flattenV uvs ∧
      md.indices = 0 :: 0 :: 0 :: flattenT fs := by
  unfold load_model at h
  rw [runLines_shift (tokenLines input) [(0, 0, 0)] [(0, 0, 0)]] at h
  unfold parsedVerts parsedFaces
  rcases hr : runLines (tokenLines input) [] [] with e | ⟨dv, dt⟩ <;> rw [hr] at h
  · simp [Except.map] at h
  · simp only [Except.map, List.cons_append, List.nil_append, Except.ok.injEq] at h
    subst h
    exact ⟨dv, dt, rfl, rfl, by simp [flattenV], by simp [flattenT]⟩

/-- Witness for the amended C1 theorem at the concrete input `"f 2 2 2\n"`. -/
theorem load_model_indices_structure_witness :
    ∃ uvs fs, parsedVerts "f 2 2 2\n" = .ok uvs ∧ parsedFaces "f 2 2 2\n" = .ok fs ∧
      (ModelData.mk [0, 0, 0] [0, 0, 0, 2, 2, 2]).vertices = 0 :: 0 :: 0 :: flattenV uvs ∧
      (ModelData.mk [0, 0, 0] [0, 0, 0, 2, 2, 2]).indices = 0 :: 0 :: 0 :: flattenT fs :=
  load_model_indices_structure "f 2 2 2\n" ⟨[0, 0, 0], [0, 0, 0, 2, 2, 2]⟩ (by decide)

/-- C2, counterexample: parsing `"v 1 2 3\nv 4 5 6\nf 1 2 1\n"` does succeed
and does yield the claimed vertex sequence, but the returned indices are
`[0, 0, 0, 1, 2, 1]` — the sentinel triangle precedes the user face — not
the claimed `[1, 2, 1]`. -/
theorem load_model_example_indices_differ :
    load_model "v 1 2 3\nv 4 5 6\nf 1 2 1\n" =
      .ok ⟨[0, 0, 0, 1, 2, 3, 4, 5, 6], [0, 0, 0, 1, 2, 1]⟩ ∧
    ([0, 0, 0, 1, 2, 1] : List Nat) ≠ [1, 2, 1] := by
  constructor
  · decide
  · decide

/-- C2 (amended): parsing the exact input `"v 1 2 3\nv 4 5 6\nf 1 2 1\n"`
succeeds and returns vertices `[0,0,0, 1,2,3, 4,5,6]` (sentinel point at
storage index 0) and indices `[0,0,0, 1,2,1]` (the sentinel triangle triple
precedes the flattened user face `1,2,1`). -/
theorem load_model_example_eval :
    load_model "v 1 2 3\nv 4 5 6\nf 1 2 1\n" =
      .ok ⟨[0, 0, 0, 1, 2, 3, 4, 5, 6], [0, 0, 0, 1, 2, 1]⟩ := by decide

/-- C3 (code bug): on the malformed vertex line `"v 1 2"` (missing z) the
code does not return a `MalformedVertex` error value — no such error type
exists — it panics through `.expect("there is z data")`; likewise a token
failing numeric decode panics through
`.expect("x_coord should be parsable into f32")`.  `Except.error msg` is
this embedding's image of the Rust panic. -/
theorem load_model_malformed_vertex_panics :
    load_model "v 1 2\n" = .error "there is z data" ∧
    load_model "v a 2 3\n" = .error "x_coord should be parsable into f32" := by
  constructor
  · decide
  · decide

/-- C4 (code bug): calling `draw` with no mesh loaded does not return a
`NoMeshLoaded` error value — no such error type exists; the code logs and
executes `panic!()`, aborting.  The held state is (vacuously) unchanged. -/
theorem draw_without_mesh_panics (o : GlamOps K) (canvas_width canvas_height : ℕ)
    (x_rot y_rot z_near z_far camera_offset : K) :
    draw o none canvas_width canvas_height x_rot y_rot z_near z_far camera_offset =
      (DrawResult.panicked, none) := rfl

/-- C5, counterexample: from `rotation = (350, 10)` with stored cursor
`(20, 30)`, the move to `(15, 10)` produces `deltaX = +5`, `deltaY = +20`,
and the code yields `rotation = (355, 30)` — each component is incremented
by its own axis delta (`x += deltaX`, `y += deltaY`) — not the claimed
cross-paired `(10, 15)`. -/
theorem mouse_move_cross_pairing_fails :
    (mouse_move ⟨true, (20, 30), (350, 10), 5, 1, 200⟩ 15 10).current_rotation =
      (355, 30) ∧
    (mouse_move ⟨true, (20, 30), (350, 10), 5, 1, 200⟩ 15 10).current_rotation ≠
      (10, 15) := by
  have hmove := mouse_move_dragging_eq ⟨true, (20, 30), (350, 10), 5, 1, 200⟩ 15 10 rfl
  have hrot : (mouse_move ⟨true, (20, 30), (350, 10), 5, 1, 200⟩ 15 10).current_rotation =
      (rustRem ((350 : ℚ) + ((20 - 15 : ℤ) : ℚ)) 360,
       rustRem ((10 : ℚ) + ((30 - 10 : ℤ) : ℚ)) 360) := by rw [hmove]
  have e₁ : ((350 : ℚ) + ((20 - 15 : ℤ) : ℚ)) = 355 := by norm_num
  have e₂ : ((10 : ℚ) + ((30 - 10 : ℤ) : ℚ)) = 30 := by norm_num
  rw [hrot, e₁, e₂, rustRem_eq_self 355 360 (by norm_num) (by norm_num) (by norm_num),
    rustRem_eq_self 30 360 (by norm_num) (by norm_num) (by norm_num)]
  refine ⟨rfl, fun hc => ?_⟩
  rw [Prod.mk.injEq] at hc
  exact absurd hc.1 (by norm_num)

/-- C5 (amended): for every `PointerMove` received while dragging, with the
deltas computed from the `lastCursor` captured before it is overwritten
(`deltaX = lastCursor.x - x`, `deltaY = lastCursor.y - y`), the new rotation
satisfies `rotation.x = (rotation.x + deltaX) % 360` and
`rotation.y = (rotation.y + deltaY) % 360` — each axis takes its own delta,
with `%` the truncating Rust float remainder — and the stored cursor becomes
`(x, y)`. -/
theorem mouse_move_rotation_update (st : SharedState) (x y : ℤ)
    (h : st.canvas_cursor_is_dragging = true) :
    (mouse_move st x y).current_rotation =
      (rustRem (st.current_rotation.1 +
          ((st.canvas_cursor_xy_coordinates.1 - x : ℤ) : ℚ)) 360,
       rustRem (st.current_rotation.2 +
          ((st.canvas_cursor_xy_coordinates.2 - y : ℤ) : ℚ)) 360) ∧
    (mouse_move st x y).canvas_cursor_xy_coordinates = (x, y) := by
  rw [mouse_move_dragging_eq st x y h]
  exact ⟨rfl, rfl⟩

/-- Witness for the amended C5 theorem: the concrete drag of the
counterexample, `rotation = (350, 10)`, cursor `(20, 30)`, move to
`(15, 10)`. -/
theorem mouse_move_rotation_update_witness :
    (mouse_move ⟨true, (20, 30), (350, 10), 5, 1, 200⟩ 15 10).current_rotation =
      (rustRem ((350 : ℚ) + ((20 - 15 : ℤ) : ℚ)) 360,
       rustRem ((10 : ℚ) + ((30 - 10 : ℤ) : ℚ)) 360) ∧
    (mouse_move ⟨true, (20, 30), (350, 10), 5, 1, 200⟩ 15 10).canvas_cursor_xy_coordinates =
      (15, 10) :=
  mouse_move_rotation_update ⟨true, (20, 30), (350, 10), 5, 1, 200⟩ 15 10 rfl

/-- C6, counterexample: from `rotation = (10, 10)` with stored cursor
`(0, 0)`, moving to `(50, 0)` while dragging gives `deltaX = -50`, and the
truncating remainder leaves `10 - 50 = -40` unchanged: the stored angle is
`-40`, outside `[0, 360)`. -/
theorem rotation_range_fails :
    (mouse_move ⟨true, (0, 0), (10, 10), 5, 1, 200⟩ 50 0).current_rotation.1 = -40 ∧
    ¬ (0 ≤ (mouse_move ⟨true, (0, 0), (10, 10), 5, 1, 200⟩ 50 0).current_rotation.1) := by
  have hmove := mouse_move_dragging_eq ⟨true, (0, 0), (10, 10), 5, 1, 200⟩ 50 0 rfl
  have hval : (mouse_move ⟨true, (0, 0), (10, 10), 5, 1, 200⟩ 50 0).current_rotation.1 =
      rustRem ((10 : ℚ) + ((0 - 50 : ℤ) : ℚ)) 360 := by rw [hmove]
  have e : ((10 : ℚ) + ((0 - 50 : ℤ) : ℚ)) = -40 := by norm_num
  rw [hval, e, rustRem_eq_self (-40) 360 (by norm_num) (by norm_num) (by norm_num)]
  exact ⟨rfl, by norm_num⟩

/-- C6 (amended): after every `PointerMove` update performed while dragging,
each stored rotation angle lies strictly between `-360` and `360`: the Rust
`%` is a truncating remainder, so negative sums yield negative angles and
the half-open interval `[0, 360)` of the original claim is not maintained. -/
theorem rotation_stays_in_open_interval (st : SharedState) (x y : ℤ)
    (h : st.canvas_cursor_is_dragging = true) :
    -360 < (mouse_move st x y).current_rotation.1 ∧
    (mouse_move st x y).current_rotation.1 < 360 ∧
    -360 < (mouse_move st x y).current_rotation.2 ∧
    (mouse_move st x y).current_rotation.2 < 360 := by
  rw [mouse_move_dragging_eq st x y h]
  have h₁ := rustRem_bounds (st.current_rotation.1 +
    ((st.canvas_cursor_xy_coordinates.1 - x : ℤ) : ℚ)) 360 (by norm_num)
  have h₂ := rustRem_bounds (st.current_rotation.2 +
    ((st.canvas_cursor_xy_coordinates.2 - y : ℤ) : ℚ)) 360 (by norm_num)
  exact ⟨h₁.1, h₁.2, h₂.1, h₂.2⟩

/-- Witness for the amended C6 theorem: the concrete drag of the
counterexample (negative delta). -/
theorem rotation_stays_in_open_interval_witness :
    -360 < (mouse_move ⟨true, (0, 0), (10, 10), 5, 1, 200⟩ 50 0).current_rotation.1 ∧
    (mouse_move ⟨true, (0, 0), (10, 10), 5, 1, 200⟩ 50 0).current_rotation.1 < 360 ∧
    -360 < (mouse_move ⟨true, (0, 0), (10, 10), 5, 1, 200⟩ 50 0).current_rotation.2 ∧
    (mouse_move ⟨true, (0, 0), (10, 10), 5, 1, 200⟩ 50 0).current_rotation.2 < 360 :=
  rotation_stays_in_open_interval ⟨true, (0, 0), (10, 10), 5, 1, 200⟩ 50 0 rfl

/-- C7 (confirmed): for every `Wheel(deltaY)` event, in either dragging
state, the new camera offset is `clamp(offset + 0.25 * deltaY, 1, 1000)`
(equivalently `min (max (offset + deltaY/4) 1) 1000`), the dragging flag is
untouched, and in particular `offset = 5` with `deltaY = -10000` clamps to
`1` while `offset = 995` with `deltaY = +10000` clamps to `1000`. -/
theorem wheel_offset_clamped :
    (∀ (st : SharedState) (scroll_delta : ℚ),
        (mouse_wheel st scroll_delta).camera_offset =
          rustClamp (st.camera_offset + (1 / 4) * scroll_delta) 1 1000 ∧
        (mouse_wheel st scroll_delta).camera_offset =
          min (max (st.camera_offset + (1 / 4) * scroll_delta) 1) 1000 ∧
        (mouse_wheel st scroll_delta).canvas_cursor_is_dragging =
          st.canvas_cursor_is_dragging) ∧
    (mouse_wheel ⟨false, (0, 0), (0, 0), 5, 1, 200⟩ (-10000)).camera_offset = 1 ∧
    (mouse_wheel ⟨true, (0, 0), (0, 0), 995, 1, 200⟩ 10000).camera_offset = 1000 := by
  refine ⟨fun st d => ⟨rfl, rustClamp_eq_min_max _ 1 1000 (by norm_num), rfl⟩, ?_, ?_⟩
  · norm_num [mouse_wheel, rustClamp]
  · norm_num [mouse_wheel, rustClamp]

/-- C8 (confirmed): the world matrix computed by `draw` is the identity
composed, in the fixed order rotationX, rotationY, rotationZ, with a
rotation about X by `-rotation.y` degrees, about Y by `0`, and about Z by
`rotation.x` degrees, all angles converted to radians — the cross-wired
axis/angle pairing of the source, exactly as the spec words it. -/
theorem draw_world_matrix_matches_spec (o : GlamOps K) (x_rot y_rot : K) :
    draw_world_matrix o x_rot y_rot = specWorldMatrix o x_rot y_rot := by
  simp only [draw_world_matrix, specWorldMatrix]
  rw [show degToRad o (-y_rot) = -1 * y_rot * o.pi / 180 from by unfold degToRad; ring,
    show degToRad o 0 = (0 : K) from by unfold degToRad; ring,
    show degToRad o x_rot = x_rot * o.pi / 180 from by unfold degToRad; ring]
  rfl

/-- C9 (confirmed): `draw` is a pure function of the held mesh, viewport and
camera arguments — it takes `&self` and mutates nothing — so a second call
with identical arguments on the state left by the first produces an
identical result (identical view, projection and world matrices), and the
held mesh is returned unchanged. -/
theorem draw_is_deterministic (o : GlamOps K) (st : Option ModelData)
    (canvas_width canvas_height : ℕ) (x_rot y_rot z_near z_far camera_offset : K) :
    (draw o (draw o st canvas_width canvas_height x_rot y_rot z_near z_far camera_offset).2
        canvas_width canvas_height x_rot y_rot z_near z_far camera_offset).1 =
      (draw o st canvas_width canvas_height x_rot y_rot z_near z_far camera_offset).1 ∧
    (draw o st canvas_width canvas_height x_rot y_rot z_near z_far camera_offset).2 = st := by
  cases st <;> exact ⟨rfl, rfl⟩

/-- C10 (confirmed): a `v` line carrying more than three decodable tokens
parses successfully, appends exactly the first three decoded coordinates as
one vertex, leaves the triangle list untouched, and is indistinguishable
from the same line truncated to three tokens — the remaining tokens are
silently ignored. -/
theorem vertex_line_extra_tokens_ignored
    (vs : VertList) (ts : TriList) (t₁ t₂ t₃ : Token) (rest : List Token)
    (x y z : ℚ) (hx : parseF32? t₁ = some x) (hy : parseF32? t₂ = some y)
    (hz : parseF32? t₃ = some z) :
    processLine (['v'] :: t₁ :: t₂ :: t₃ :: rest) vs ts = .ok (vs ++ [(x, y, z)], ts) ∧
    processLine (['v'] :: t₁ :: t₂ :: t₃ :: rest) vs ts =
      processLine [['v'], t₁, t₂, t₃] vs ts := by
  unfold processLine
  simp [hx, hy, hz]

/-- Witness for the C10 theorem: the line `v 1 2 3 4` behaves exactly like
`v 1 2 3`. -/
theorem vertex_line_extra_tokens_ignored_witness :
    processLine [['v'], ['1'], ['2'], ['3'], ['4']] [] [] = .ok ([] ++ [(1, 2, 3)], []) ∧
    processLine [['v'], ['1'], ['2'], ['3'], ['4']] [] [] =
      processLine [['v'], ['1'], ['2'], ['3']] [] [] :=
  vertex_line_extra_tokens_ignored [] [] ['1'] ['2'] ['3'] [['4']] 1 2 3
    (by decide) (by decide) (by decide)

end ObjRenderer
